import Mathlib

/-!
Verification of the Auto-Sub subtitle pipeline.

The development shallowly embeds the pipeline's core logic:

* `src/unnamed/part_001` (the SRT helper module): `formatSrtTime`,
  `generateSrtString`;
* `src/services/gemini.ts`: `transcribeAndTranslateMedia` (request building,
  mode dispatch, response handling, error collapsing);
* `src/App.tsx`: `validateAndSetFile` and the dispatch decision of
  `handleGenerate`.

JavaScript numbers are modelled as exact rationals (`ℚ`); the JavaScript
builtins the code relies on (`Date` time-value truncation, `toFixed`
rounding, `padStart`, `Array.prototype.map`/`join`, string truthiness) are
modelled by small explicit definitions placed next to their uses.
`JSON.parse` is an opaque browser builtin and is modelled as a function
parameter `parse : String → Option Json` (`none` models a parse exception).
-/

/-- Subtitle item from `types.ts`: `start`/`end` in seconds, caption `text`. -/
structure SubtitleItem where
  start : ℚ
  «end» : ℚ
  text : String

/-- JavaScript `String.prototype.padStart(n, c)`: left-pad to length `n` with
`c`; strings already at least `n` long are returned unchanged. -/
def padStart (s : String) (n : Nat) (c : Char) : String :=
  String.mk (List.replicate (n - s.length) c) ++ s

/-- JavaScript truncation toward zero, as `TimeClip` applies it when
`date.setSeconds(seconds)` stores a fractional time value (ECMA-262
`ToIntegerOrInfinity`). -/
def jsTrunc (q : ℚ) : Int :=
  if q < 0 then -⌊-q⌋ else ⌊q⌋

/-- JavaScript `seconds % 1`: remainder after truncation toward zero (the
fractional part, for non-negative inputs). -/
def jsFrac (q : ℚ) : ℚ :=
  q - jsTrunc q

/-- JavaScript `x.toFixed(3)` for `x ≥ 0`: the integer `n` nearest to
`x * 1000` (ties to the larger `n`, per ECMA-262) rendered as
`"<n / 1000>.<n % 1000 zero-padded to 3 digits>"`. -/
def jsToFixed3 (x : ℚ) : String :=
  toString (⌊x * 1000 + 1/2⌋ / 1000) ++ "." ++
    padStart (toString (⌊x * 1000 + 1/2⌋ % 1000)) 3 '0'

/-- Milliseconds-of-day held by `new Date(0); date.setSeconds(seconds)`
(src/unnamed/part_001 lines 7-8): the time value is `seconds * 1000`
truncated toward zero. -/
def srtTimeval (seconds : ℚ) : Int :=
  jsTrunc (seconds * 1000)

/-- Hour field of `formatSrtTime`: `Math.floor(seconds / 3600)` (line 9),
computed from the raw seconds, not from the `Date`. -/
def srtHours (seconds : ℚ) : Int :=
  ⌊seconds / 3600⌋

/-- Minute field: `date.getUTCMinutes()` (line 10), i.e. the minutes-of-hour
of the stored time value. `Int` `/` and `%` round toward negative infinity
for the positive divisors used here, matching the UTC calendar fields. -/
def srtMins (seconds : ℚ) : Int :=
  (srtTimeval seconds / 60000) % 60

/-- Second field: `date.getUTCSeconds()` (line 11). -/
def srtSecs (seconds : ℚ) : Int :=
  (srtTimeval seconds / 1000) % 60

/-- Millisecond field: `(seconds % 1).toFixed(3).substring(2)` (line 12) —
note the fixed two-character prefix drop, regardless of whether `toFixed`
rounded the fraction up to `"1.000"`. -/
def srtMs (seconds : ℚ) : String :=
  (jsToFixed3 (jsFrac seconds)).drop 2

/-- `formatSrtTime` from src/unnamed/part_001 lines 6-15: renders
`HH:MM:SS,mmm` from the four fields above. -/
def formatSrtTime (seconds : ℚ) : String :=
  padStart (toString (srtHours seconds)) 2 '0' ++ ":" ++
    padStart (toString (srtMins seconds)) 2 '0' ++ ":" ++
    padStart (toString (srtSecs seconds)) 2 '0' ++ "," ++ srtMs seconds

/-- Split a character list at every occurrence of the separator `c`. -/
def splitOnChar (c : Char) : List Char → List (List Char)
  | [] => [[]]
  | x :: xs =>
    match splitOnChar c xs with
    | [] => if x == c then [[], []] else [[x]]
    | y :: ys => if x == c then [] :: y :: ys else (x :: y) :: ys

/-- Value of a digit run, accumulator style; fails on a non-digit. -/
def parseDigitsAux : List Char → Nat → Option Nat
  | [], acc => some acc
  | c :: cs, acc =>
    if c.isDigit then parseDigitsAux cs (acc * 10 + (c.toNat - '0'.toNat))
    else none

/-- Parse a non-empty run of decimal digits. -/
def parseDigits (cs : List Char) : Option Nat :=
  match cs with
  | [] => none
  | _ :: _ => parseDigitsAux cs 0

/-- Modelled from the spec: the timestamp decoder of §8's round-trip property
(`decode(encodeTimestamp(seconds))`); no decoder exists in the repository.
Parses `HH:MM:SS,mmm` back into seconds. -/
def decodeSrtTime (s : String) : Option ℚ :=
  match splitOnChar ':' s.data with
  | [h, m, rest] =>
    match splitOnChar ',' rest with
    | [sec, ms] =>
      match parseDigits h, parseDigits m, parseDigits sec, parseDigits ms with
      | some hh, some mm, some ss, some mss =>
        some ((hh : ℚ) * 3600 + (mm : ℚ) * 60 + (ss : ℚ) + (mss : ℚ) / 1000)
      | _, _, _, _ => none
    | _ => none
  | _ => none

/-- One block produced by the arrow function inside `generateSrtString`
(src/unnamed/part_001 line 25): `index+1`, timestamps line, text, each line
newline-terminated. -/
def srtBlock (index : Nat) (item : SubtitleItem) : String :=
  toString (index + 1) ++ "\n" ++ formatSrtTime item.start ++ " --> " ++
    formatSrtTime item.«end» ++ "\n" ++ item.text ++ "\n"

/-- JavaScript `subtitles.map((item, index) => ...)` specialised to the block
builder: index-aware map over the list. -/
def srtBlocks : Nat → List SubtitleItem → List String
  | _, [] => []
  | i, item :: rest => srtBlock i item :: srtBlocks (i + 1) rest

/-- JavaScript `Array.prototype.join(sep)`. -/
def joinSep (sep : String) : List String → String
  | [] => ""
  | x :: xs =>
    match xs with
    | [] => x
    | _ :: _ => x ++ sep ++ joinSep sep xs

/-- `generateSrtString` from src/unnamed/part_001 lines 20-28:
`subtitles.map(block).join('\n')`. -/
def generateSrtString (subtitles : List SubtitleItem) : String :=
  joinSep "\n" (srtBlocks 0 subtitles)

/-- Read-only traversal performed by `Array.prototype.map`: returns the
blocks it produces together with the subtitle array as it stands after the
call, making explicit that `map` only reads the elements and never writes
them back. -/
def srtBlocksRun : Nat → List SubtitleItem → List String × List SubtitleItem
  | _, [] => ([], [])
  | i, item :: rest =>
    let r := srtBlocksRun (i + 1) rest
    (srtBlock i item :: r.1, item :: r.2)

/-- `generateSrtString` with the array state threaded through the `map`
call: first component is the serialized output, second is the input array as
observable after the call. -/
def generateSrtStringRun (subtitles : List SubtitleItem) : String × List SubtitleItem :=
  (joinSep "\n" (srtBlocksRun 0 subtitles).1, (srtBlocksRun 0 subtitles).2)

/-- Modelled from the spec (§4.4): the three content lines of the wire-format
block for 1-based sequence number `num` — the number line, the
`start --> end` timestamps line, and the text line. -/
def specSrtBlockCore (num : Nat) (item : SubtitleItem) : String :=
  toString num ++ "\n" ++ formatSrtTime item.start ++ " --> " ++
    formatSrtTime item.«end» ++ "\n" ++ item.text

/-- Modelled from the spec: the blocks for a sequence, numbered consecutively
starting from `num`. -/
def specSrtBlocks : Nat → List SubtitleItem → List String
  | _, [] => []
  | num, item :: rest => specSrtBlockCore num item :: specSrtBlocks (num + 1) rest

/-- Modelled from the spec (§4.4, §6, §8): blocks numbered `1..n` in sequence
order, exactly one blank separator line between consecutive blocks, the final
text line newline-terminated, and no leading or trailing extra blank line. -/
def specSrtString (subtitles : List SubtitleItem) : String :=
  match subtitles with
  | [] => ""
  | _ :: _ => joinSep "\n\n" (specSrtBlocks 1 subtitles) ++ "\n"

/-- `Language` enum from `types.ts` (the name `Language` is taken by Mathlib). -/
inductive TargetLanguage
  | indonesian
  | english

/-- Inline media argument of `transcribeAndTranslateMedia`
(`{ base64: string; mimeType: string }`). -/
structure MediaData where
  base64 : String
  mimeType : String

/-- Structured data as produced by `JSON.parse`. -/
inductive Json
  | null
  | bool (b : Bool)
  | num (q : ℚ)
  | str (s : String)
  | arr (elems : List Json)
  | obj (fields : List (String × Json))

/-- One part of a Gemini request content: instruction text or inline media. -/
inductive RequestPart
  | text (s : String)
  | inlineData (data : String) (mimeType : String)

/-- One entry of the `contents` array handed to `generateContent`. -/
structure RequestContent where
  parts : List RequestPart

/-- Tools attached to the request config; the code only ever attaches
`{ googleSearch: {} }`. -/
inductive RequestTool
  | googleSearch

/-- Request specification handed to `ai.models.generateContent`
(gemini.ts lines 30-80). The constant `responseSchema` object is not
modelled: no claim examines it. -/
structure GeminiRequest where
  model : String
  contents : List RequestContent
  tools : List RequestTool
  responseMimeType : String

/-- Internal error kinds of `transcribeAndTranslateMedia`: the distinct
exceptions raised inside its try block (`"No source provided"`,
`"Empty response from AI"`, a `JSON.parse` throw) plus a throw from the
external service call itself. -/
inductive GeminiError
  | noSourceProvided
  | emptyResponse
  | malformedResponse
  | externalServiceFailure
  deriving DecidableEq

/-- JavaScript truthiness of an optional string (`undefined` and `""` are
falsy), as tested by `if (youtubeUrl)` and `if (!resultText)`. -/
def optionStrTruthy : Option String → Bool
  | none => false
  | some s => !(s == "")

/-- `targetLanguage === TargetLanguage.INDONESIAN ? 'Indonesian' : 'English'`
(gemini.ts line 12). -/
def targetLanguageName : TargetLanguage → String
  | TargetLanguage.indonesian => "Indonesian"
  | TargetLanguage.english => "English"

/-- The `promptBase` template literal (gemini.ts lines 14-28), parameterized
by the target-language display name exactly where the literal interpolates
it. -/
def promptBase (name : String) : String :=
  "You are a professional subtitle creator. Your goal is to produce subtitles in " ++ name ++
    ".\n  \n  INSTRUCTIONS:\n  1. Detect the language spoken or the content of the media.\n  2. Produce a precise transcription if the source matches " ++ name ++
    ", or a faithful translation if it differs.\n  3. All output MUST be in " ++ name ++
    ".\n  4. Ensure all timestamps are perfectly synced and follow the SRT standard logic.\n  \n  FORMATTING:\n  - Return a JSON object with a \"subtitles\" array.\n  - Each item must have:\n    - \"start\": start time in seconds (number)\n    - \"end\": end time in seconds (number)\n    - \"text\": the " ++ name ++
    " text.\n  - Keep lines brief (max 10 words)."

/-- Request construction of `transcribeAndTranslateMedia` (gemini.ts lines
31-74): `if (youtubeUrl)` attaches the search tool and embeds the URL in the
instruction text; `else if (mediaData)` attaches the payload as an inline
content part with no tools; otherwise `throw new Error("No source provided")`. -/
def buildRequest (targetLanguage : TargetLanguage) (mediaData : Option MediaData)
    (youtubeUrl : Option String) : Except GeminiError GeminiRequest :=
  let pb := promptBase (targetLanguageName targetLanguage)
  if optionStrTruthy youtubeUrl then
    Except.ok
      { model := "gemini-3-flash-preview"
        contents := [⟨[RequestPart.text (pb ++
          "\n\nTask: Generate subtitles for this YouTube video: " ++ youtubeUrl.getD "" ++
          ". Use your tools to find the transcript or dialogue.")]⟩]
        tools := [RequestTool.googleSearch]
        responseMimeType := "application/json" }
  else
    match mediaData with
    | some md =>
      Except.ok
        { model := "gemini-3-flash-preview"
          contents := [⟨[RequestPart.text pb,
            RequestPart.inlineData md.base64 md.mimeType]⟩]
          tools := []
          responseMimeType := "application/json" }
    | none => Except.error GeminiError.noSourceProvided

/-- Response handling inside the try block (gemini.ts lines 82-85): a falsy
`response.text` raises `"Empty response from AI"`; otherwise the result of
`JSON.parse(resultText)` is returned as-is — the `as TranscriptionResponse`
cast performs no runtime validation. A `JSON.parse` throw (modelled by
`parse` returning `none`) is the malformed-response case. -/
def responsePhase (parse : String → Option Json) (resultText : Option String) :
    Except GeminiError Json :=
  if optionStrTruthy resultText then
    match parse (resultText.getD "") with
    | some j => Except.ok j
    | none => Except.error GeminiError.malformedResponse
  else
    Except.error GeminiError.emptyResponse

/-- Observable behaviour of one `ai.models.generateContent` call: the call
throws, or returns a response whose `.text` is absent or a string. -/
inductive ServiceBehavior
  | failure
  | returns (text : Option String)

/-- The try block of `transcribeAndTranslateMedia`, paired with the request
dispatched to the external service, if any (`none` means `generateContent`
was never invoked). -/
def transcribeRun (parse : String → Option Json) (targetLanguage : TargetLanguage)
    (mediaData : Option MediaData) (youtubeUrl : Option String)
    (service : GeminiRequest → ServiceBehavior) :
    Except GeminiError Json × Option GeminiRequest :=
  match buildRequest targetLanguage mediaData youtubeUrl with
  | Except.error e => (Except.error e, none)
  | Except.ok req =>
    match service req with
    | ServiceBehavior.failure => (Except.error GeminiError.externalServiceFailure, some req)
    | ServiceBehavior.returns text => (responsePhase parse text, some req)

/-- Outcome of one `transcribeAndTranslateMedia` call: the value returned to
the caller (or the single collapsed failure message), the internal error kind
recorded by `console.error` in the catch block, and the dispatched request. -/
structure TranscribeOutcome where
  result : Except String Json
  loggedError : Option GeminiError
  dispatched : Option GeminiRequest

/-- The single user-facing failure message rethrown by the catch block
(gemini.ts line 88). -/
def userFacingMessage : String :=
  "Failed to process media. Please ensure the file or link is valid."

/-- `transcribeAndTranslateMedia` (gemini.ts lines 7-90): run the try block;
on any internal error, log the distinct kind (`console.error`) and rethrow
the single user-facing message. -/
def transcribeAndTranslateMedia (parse : String → Option Json)
    (targetLanguage : TargetLanguage) (mediaData : Option MediaData)
    (youtubeUrl : Option String) (service : GeminiRequest → ServiceBehavior) :
    TranscribeOutcome :=
  match transcribeRun parse targetLanguage mediaData youtubeUrl service with
  | (Except.error e, d) => ⟨Except.error userFacingMessage, some e, d⟩
  | (Except.ok j, d) => ⟨Except.ok j, none, d⟩

/-- Is a JSON value an array. -/
def Json.isArr : Json → Bool
  | Json.arr _ => true
  | _ => false

/-- Does a parsed reply carry a top-level `subtitles` array (the shape §4.3
step 3 demands). -/
def hasSubtitlesArray : Json → Bool
  | Json.obj fields => fields.any fun kv => kv.1 == "subtitles" && Json.isArr kv.2
  | _ => false

/-- Is a JSON value a non-empty string. -/
def isNonEmptyString : Json → Bool
  | Json.str s => !(s == "")
  | _ => false

/-- Does a subtitles-array entry carry a `text` field holding a non-empty
string (the per-entry requirement of §4.3 step 3). -/
def entryHasValidText : Json → Bool
  | Json.obj fields => fields.any fun kv => kv.1 == "text" && isNonEmptyString kv.2
  | _ => false

/-- A browser file as `App.tsx` observes it. -/
structure File where
  name : String
  type : String
  size : Nat

/-- The `App` component state touched by the claims: `file`, `youtubeUrl`,
`error`, `subtitles`. -/
structure AppState where
  file : Option File
  youtubeUrl : String
  error : Option String
  subtitles : List SubtitleItem

/-- `MAX_FILE_SIZE` (App.tsx line 32): 100 MiB. -/
def MAX_FILE_SIZE : Nat := 100 * 1024 * 1024

/-- `validateAndSetFile` (App.tsx lines 34-44): oversized files set the fixed
error message and clear the selection; accepted files replace the selection
and clear the YouTube URL, error and subtitles. -/
def validateAndSetFile (st : AppState) (selectedFile : File) : AppState :=
  if selectedFile.size > MAX_FILE_SIZE then
    { st with
        error := some "File size exceeds 100MB. Please upload a smaller file."
        file := none }
  else
    { st with
        file := some selectedFile
        youtubeUrl := ""
        error := none
        subtitles := [] }

/-- What one `handleGenerate` click does with the current state: encoding
(`convertFileToBase64`) and the request builder run only in the
`dispatchFile` arm (App.tsx lines 111-113). -/
inductive GenerateAction
  | blocked (message : String)
  | dispatchFile (f : File)
  | dispatchUrl (url : String)

/-- `handleGenerate` dispatch decision (App.tsx lines 100-116): bail out when
neither source is present, otherwise encode and send the file if one is
selected, else send the YouTube URL. -/
def handleGenerate (st : AppState) : GenerateAction :=
  if st.file.isNone && (st.youtubeUrl == "") then
    GenerateAction.blocked "Please provide a file or a YouTube link."
  else
    match st.file with
    | some f => GenerateAction.dispatchFile f
    | none => GenerateAction.dispatchUrl st.youtubeUrl

/-- Media payload used by concrete instantiations below. -/
def sampleMedia : MediaData := ⟨"QUJDRA==", "audio/mpeg"⟩

/-- A parse oracle that always fails (a reply that is not structured data). -/
def nullParse : String → Option Json := fun _ => none

/-- A service whose reply has an absent `.text`. -/
def emptyReplyService : GeminiRequest → ServiceBehavior :=
  fun _ => ServiceBehavior.returns none

/-- A parsed reply that is a JSON object with no `subtitles` key. -/
def jNoSubtitles : Json := Json.obj [("status", Json.str "ok")]

/-- Parse oracle mapping the concrete reply text to `jNoSubtitles`. -/
def parseNoSubtitles : String → Option Json :=
  fun s => if s == "resp" then some jNoSubtitles else none

/-- Service returning the concrete reply text parsed by `parseNoSubtitles`. -/
def svcNoSubtitles : GeminiRequest → ServiceBehavior :=
  fun _ => ServiceBehavior.returns (some "resp")

/-- A well-formed subtitles entry. -/
def subGoodEntry : Json :=
  Json.obj [("start", Json.num 0), ("end", Json.num 1), ("text", Json.str "Hello")]

/-- A subtitles entry lacking the `text` field. -/
def subBadEntry : Json :=
  Json.obj [("start", Json.num 1), ("end", Json.num 2)]

/-- A reply whose `subtitles` array holds two entries, one lacking `text`. -/
def replyWithBadEntry : Json :=
  Json.obj [("subtitles", Json.arr [subGoodEntry, subBadEntry])]

/-- Parse oracle mapping the concrete reply text to `replyWithBadEntry`. -/
def parseBadEntry : String → Option Json :=
  fun s => if s == "resp2" then some replyWithBadEntry else none

/-- Service returning the concrete reply text parsed by `parseBadEntry`. -/
def svcBadEntry : GeminiRequest → ServiceBehavior :=
  fun _ => ServiceBehavior.returns (some "resp2")

/-- The initial `App` state: no file, no URL, no error, no subtitles. -/
def initialAppState : AppState := ⟨none, "", none, []⟩

/-- An oversized file of 101 MiB. -/
def oversizedFileA : File := ⟨"video.mp4", "video/mp4", 105906176⟩

/-- An oversized file of 102 MiB. -/
def oversizedFileB : File := ⟨"video.mp4", "video/mp4", 106954752⟩

/-- JavaScript truncation coincides with the floor on non-negative values. -/
theorem jsTrunc_of_nonneg (q : ℚ) (h : 0 ≤ q) : jsTrunc q = ⌊q⌋ := by
  unfold jsTrunc
  rw [if_neg (not_lt.mpr h)]

/-- The minutes value derived from the remainder after removing whole hours
is non-negative. -/
theorem remMinutes_nonneg (s : ℚ) : 0 ≤ ⌊(s - 3600 * ⌊s / 3600⌋) / 60⌋ := by
  apply Int.floor_nonneg.mpr
  apply div_nonneg _ (by norm_num)
  have hfl : ((⌊s / 3600⌋ : ℤ) : ℚ) ≤ s / 3600 := Int.floor_le _
  have := (le_div_iff₀ (show (0:ℚ) < 3600 by norm_num)).mp hfl
  linarith

/-- The minutes value derived from the remainder after removing whole hours
is below 60. -/
theorem remMinutes_lt (s : ℚ) : ⌊(s - 3600 * ⌊s / 3600⌋) / 60⌋ < 60 := by
  apply Int.floor_lt.mpr
  have hfu : s / 3600 < (⌊s / 3600⌋ : ℚ) + 1 := Int.lt_floor_add_one _
  have := (div_lt_iff₀ (show (0:ℚ) < 3600 by norm_num)).mp hfu
  push_cast
  rw [div_lt_iff₀ (show (0:ℚ) < 60 by norm_num)]
  linarith

/-- Total minutes decompose into sixty times the whole hours plus the
minutes-of-hour. -/
theorem floor_sixty_decomp (s : ℚ) :
    ⌊s / 60⌋ = 60 * ⌊s / 3600⌋ + ⌊(s - 3600 * ⌊s / 3600⌋) / 60⌋ := by
  have h : s / 60 = ((60 * ⌊s / 3600⌋ : ℤ) : ℚ) + (s - 3600 * ⌊s / 3600⌋) / 60 := by
    push_cast
    ring
  rw [h, Int.floor_int_add]

/-- The `getUTCMinutes`-derived minute field of `formatSrtTime` equals the
spec's derivation: the minutes of the remainder after removing whole hours. -/
theorem srtMins_spec (s : ℚ) (hs : 0 ≤ s) :
    srtMins s = ⌊(s - 3600 * ⌊s / 3600⌋) / 60⌋ := by
  have htv : srtTimeval s = ⌊s * 1000⌋ := by
    unfold srtTimeval
    exact jsTrunc_of_nonneg _ (by positivity)
  have hql : ⌊s / 60⌋ * 60000 ≤ ⌊s * 1000⌋ := by
    apply Int.le_floor.mpr
    push_cast
    have := (le_div_iff₀ (show (0:ℚ) < 60 by norm_num)).mp (Int.floor_le (s / 60))
    linarith
  have hqu : ⌊s * 1000⌋ < (⌊s / 60⌋ + 1) * 60000 := by
    apply Int.floor_lt.mpr
    push_cast
    have := (div_lt_iff₀ (show (0:ℚ) < 60 by norm_num)).mp (Int.lt_floor_add_one (s / 60))
    linarith
  have hediv : ⌊s * 1000⌋ / 60000 = ⌊s / 60⌋ := by
    have h1 : ⌊s / 60⌋ ≤ ⌊s * 1000⌋ / 60000 :=
      (Int.le_ediv_iff_mul_le (by norm_num)).mpr hql
    have h2 : ⌊s * 1000⌋ / 60000 < ⌊s / 60⌋ + 1 :=
      (Int.ediv_lt_iff_lt_mul (by norm_num)).mpr hqu
    omega
  unfold srtMins
  rw [htv, hediv, floor_sixty_decomp s, add_comm]
  rw [Int.add_mul_emod_self_left _ 60 _]
  exact Int.emod_eq_of_lt (remMinutes_nonneg s) (remMinutes_lt s)

/-- Concrete evaluation: twenty-five hours render as `25:` with no modulo-24
wrap, because the hour field is computed from the raw seconds. -/
theorem formatSrtTime_90000 : formatSrtTime 90000 = "25:00:00,000" := by
  have ht : srtTimeval 90000 = 90000000 := by
    unfold srtTimeval jsTrunc
    rw [if_neg (by norm_num)]
    norm_num
  have hh : srtHours 90000 = 25 := by unfold srtHours; norm_num
  have hm : srtMins 90000 = 0 := by unfold srtMins; rw [ht]; decide
  have hsx : srtSecs 90000 = 0 := by unfold srtSecs; rw [ht]; decide
  have hf : jsFrac 90000 = 0 := by
    unfold jsFrac jsTrunc
    rw [if_neg (by norm_num)]
    norm_num
  have hms : srtMs 90000 = "000" := by
    unfold srtMs
    rw [hf]
    norm_num [jsToFixed3]
    rfl
  unfold formatSrtTime
  rw [hh, hm, hsx, hms]
  rfl

/-- Concrete evaluation at 0.9995 s: `toFixed(3)` rounds the fraction up to
`"1.000"`, `substring(2)` yields `"000"`, and the carry is lost. -/
theorem formatSrtTime_09995 : formatSrtTime (1999/2000 : ℚ) = "00:00:00,000" := by
  have ht : srtTimeval (1999/2000 : ℚ) = 999 := by
    unfold srtTimeval jsTrunc
    rw [if_neg (by norm_num)]
    norm_num
  have hh : srtHours (1999/2000 : ℚ) = 0 := by unfold srtHours; norm_num
  have hm : srtMins (1999/2000 : ℚ) = 0 := by unfold srtMins; rw [ht]; decide
  have hsx : srtSecs (1999/2000 : ℚ) = 0 := by unfold srtSecs; rw [ht]; decide
  have hf : jsFrac (1999/2000 : ℚ) = 1999/2000 := by
    unfold jsFrac jsTrunc
    rw [if_neg (by norm_num)]
    norm_num
  have hms : srtMs (1999/2000 : ℚ) = "000" := by
    unfold srtMs
    rw [hf]
    norm_num [jsToFixed3]
    rfl
  unfold formatSrtTime
  rw [hh, hm, hsx, hms]
  rfl

/-- Concrete evaluation at 2.9995 s (exact arithmetic): the encoder emits the
timestamp the spec explicitly forbids, decoding to 2.000 s. -/
theorem formatSrtTime_29995 : formatSrtTime (5999/2000 : ℚ) = "00:00:02,000" := by
  have ht : srtTimeval (5999/2000 : ℚ) = 2999 := by
    unfold srtTimeval jsTrunc
    rw [if_neg (by norm_num)]
    norm_num
  have hh : srtHours (5999/2000 : ℚ) = 0 := by unfold srtHours; norm_num
  have hm : srtMins (5999/2000 : ℚ) = 0 := by unfold srtMins; rw [ht]; decide
  have hsx : srtSecs (5999/2000 : ℚ) = 2 := by unfold srtSecs; rw [ht]; decide
  have hf : jsFrac (5999/2000 : ℚ) = 1999/2000 := by
    unfold jsFrac jsTrunc
    rw [if_neg (by norm_num)]
    norm_num
  have hms : srtMs (5999/2000 : ℚ) = "000" := by
    unfold srtMs
    rw [hf]
    norm_num [jsToFixed3]
    rfl
  unfold formatSrtTime
  rw [hh, hm, hsx, hms]
  rfl

/-- Joining newline-terminated blocks with `"\n"` equals joining the bare
blocks with a blank separator line and terminating the result. -/
theorem joinSep_terminated (l : List String) (a : String) :
    joinSep "\n" ((a :: l).map fun b => b ++ "\n") = joinSep "\n\n" (a :: l) ++ "\n" := by
  induction l generalizing a with
  | nil => rfl
  | cons b t ih =>
    show (a ++ "\n") ++ "\n" ++ joinSep "\n" ((b :: t).map fun x => x ++ "\n")
        = (a ++ "\n\n" ++ joinSep "\n\n" (b :: t)) ++ "\n"
    rw [ih b, show ("\n\n" : String) = "\n" ++ "\n" from rfl]
    simp [String.append_assoc]

/-- The code's blocks are the spec's blocks (numbered from `i + 1`), each with
a terminating newline. -/
theorem srtBlocks_eq_spec (subs : List SubtitleItem) : ∀ i,
    srtBlocks i subs = (specSrtBlocks (i + 1) subs).map fun b => b ++ "\n" := by
  induction subs with
  | nil => intro i; rfl
  | cons it rest ih =>
    intro i
    show srtBlock i it :: srtBlocks (i + 1) rest
        = (specSrtBlockCore (i + 1) it ++ "\n") ::
          ((specSrtBlocks (i + 1 + 1) rest).map fun b => b ++ "\n")
    rw [← ih (i + 1)]
    unfold srtBlock specSrtBlockCore
    simp [String.append_assoc]

/-- One spec block per subtitle item. -/
theorem specSrtBlocks_length (subs : List SubtitleItem) : ∀ i,
    (specSrtBlocks i subs).length = subs.length := by
  induction subs with
  | nil => intro i; rfl
  | cons it rest ih =>
    intro i
    show (specSrtBlockCore i it :: specSrtBlocks (i + 1) rest).length = rest.length + 1
    simp [ih]

/-- The `map` traversal returns the blocks and leaves the array unchanged. -/
theorem srtBlocksRun_readonly (subs : List SubtitleItem) : ∀ i,
    srtBlocksRun i subs = (srtBlocks i subs, subs) := by
  induction subs with
  | nil => intro i; rfl
  | cons it rest ih =>
    intro i
    show (srtBlock i it :: (srtBlocksRun (i + 1) rest).1,
          it :: (srtBlocksRun (i + 1) rest).2) = _
    rw [ih (i + 1)]
    rfl

/-- With a truthy YouTube URL or a media payload present, the builder
produces a request (neither throw is reached). -/
theorem buildRequest_ok_of_source (targetLanguage : TargetLanguage)
    (mediaData : Option MediaData) (youtubeUrl : Option String)
    (hsrc : optionStrTruthy youtubeUrl = true ∨ mediaData.isSome = true) :
    ∃ req, buildRequest targetLanguage mediaData youtubeUrl = Except.ok req := by
  unfold buildRequest
  cases hyo : optionStrTruthy youtubeUrl with
  | true => exact ⟨_, by simp [hyo]; rfl⟩
  | false =>
    rcases hsrc with h | h
    · rw [hyo] at h; cases h
    · obtain ⟨md, rfl⟩ := Option.isSome_iff_exists.mp h
      exact ⟨_, by simp [hyo]; rfl⟩

/-- A non-empty reply text that parses is returned as-is by the response
step. -/
theorem responsePhase_parsed (parse : String → Option Json) (s : String) (j : Json)
    (hs : s ≠ "") (hparse : parse s = some j) :
    responsePhase parse (some s) = Except.ok j := by
  have htru : optionStrTruthy (some s) = true := by
    simp [optionStrTruthy, hs]
  unfold responsePhase
  rw [if_pos htru]
  simp [hparse]

/-- Inline-payload call whose reply text parses to `j`: the pipeline returns
`j` unvalidated and logs nothing. -/
theorem transcribe_inline_parsed (parse : String → Option Json)
    (targetLanguage : TargetLanguage) (md : MediaData)
    (service : GeminiRequest → ServiceBehavior) (s : String) (j : Json)
    (hs : s ≠ "") (hparse : parse s = some j)
    (hsvc : ∀ req, service req = ServiceBehavior.returns (some s)) :
    (transcribeAndTranslateMedia parse targetLanguage (some md) none service).result =
        Except.ok j ∧
      (transcribeAndTranslateMedia parse targetLanguage (some md) none service).loggedError =
        none := by
  obtain ⟨req, hb⟩ : ∃ req, buildRequest targetLanguage (some md) none = Except.ok req :=
    ⟨_, rfl⟩
  have hrun : transcribeRun parse targetLanguage (some md) none service =
      (responsePhase parse (some s), some req) := by
    unfold transcribeRun
    rw [hb]
    show (match service req with
      | ServiceBehavior.failure => (Except.error GeminiError.externalServiceFailure, some req)
      | ServiceBehavior.returns text => (responsePhase parse text, some req)) = _
    rw [hsvc req]
  have hrun2 : transcribeRun parse targetLanguage (some md) none service =
      (Except.ok j, some req) := by
    rw [hrun, responsePhase_parsed parse s j hs hparse]
  unfold transcribeAndTranslateMedia
  rw [hrun2]
  exact ⟨rfl, rfl⟩

/-- The request built for a truthy YouTube URL: search tool attached, URL
embedded in the single text part, media payload never consulted. -/
theorem buildRequest_url (targetLanguage : TargetLanguage) (mediaData : Option MediaData)
    (url : String) (hurl : url ≠ "") :
    buildRequest targetLanguage mediaData (some url) = Except.ok
      { model := "gemini-3-flash-preview"
        contents := [⟨[RequestPart.text (promptBase (targetLanguageName targetLanguage) ++
          "\n\nTask: Generate subtitles for this YouTube video: " ++ url ++
          ". Use your tools to find the transcript or dialogue.")]⟩]
        tools := [RequestTool.googleSearch]
        responseMimeType := "application/json" } := by
  have htr : optionStrTruthy (some url) = true := by
    simp [optionStrTruthy, hurl]
  unfold buildRequest
  rw [if_pos htr]
  rfl

/-- With no file selected, `handleGenerate` can never dispatch a file (it
blocks or dispatches the URL). -/
theorem handleGenerate_no_file (st : AppState) (h : st.file = none) :
    ∀ g : File, handleGenerate st ≠ GenerateAction.dispatchFile g := by
  intro g
  unfold handleGenerate
  rw [h]
  cases hurl : st.youtubeUrl == "" <;> simp [hurl]

/-- Claim C1, counterexample: a reply that parses as an object with no
`subtitles` array is accepted — `transcribeAndTranslateMedia` returns the
parsed value, no MalformedResponse/InvalidSubtitleItem failure occurs, and
nothing is logged. -/
theorem missingSubtitles_reply_accepted :
    hasSubtitlesArray jNoSubtitles = false ∧
      (transcribeAndTranslateMedia parseNoSubtitles TargetLanguage.english (some sampleMedia)
          none svcNoSubtitles).result = Except.ok jNoSubtitles ∧
      (transcribeAndTranslateMedia parseNoSubtitles TargetLanguage.english (some sampleMedia)
          none svcNoSubtitles).loggedError = none :=
  ⟨rfl, rfl, rfl⟩

/-- Claim C1 (amended): `transcribeAndTranslateMedia` performs no structural
validation of a reply that parses — in particular one lacking a `subtitles`
array is returned as-is, with no error of any kind and nothing logged;
errors arise only for empty replies or parse failures. -/
theorem parsedReply_returned_unvalidated (parse : String → Option Json)
    (targetLanguage : TargetLanguage) (md : MediaData)
    (service : GeminiRequest → ServiceBehavior) (s : String) (j : Json)
    (hs : s ≠ "") (hparse : parse s = some j)
    (hsvc : ∀ req, service req = ServiceBehavior.returns (some s))
    (_hnosub : hasSubtitlesArray j = false) :
    (transcribeAndTranslateMedia parse targetLanguage (some md) none service).result =
        Except.ok j ∧
      (transcribeAndTranslateMedia parse targetLanguage (some md) none service).loggedError =
        none :=
  transcribe_inline_parsed parse targetLanguage md service s j hs hparse hsvc

/-- Claim C1 witness: the amended claim at the concrete no-subtitles reply. -/
theorem parsedReply_returned_unvalidated_witness :
    ("resp" ≠ "" ∧ parseNoSubtitles "resp" = some jNoSubtitles ∧
        (∀ req, svcNoSubtitles req = ServiceBehavior.returns (some "resp")) ∧
        hasSubtitlesArray jNoSubtitles = false) ∧
      (transcribeAndTranslateMedia parseNoSubtitles TargetLanguage.indonesian (some sampleMedia)
          none svcNoSubtitles).result = Except.ok jNoSubtitles ∧
      (transcribeAndTranslateMedia parseNoSubtitles TargetLanguage.indonesian (some sampleMedia)
          none svcNoSubtitles).loggedError = none :=
  ⟨⟨by decide, rfl, fun _ => rfl, rfl⟩,
    parsedReply_returned_unvalidated parseNoSubtitles TargetLanguage.indonesian sampleMedia
      svcNoSubtitles "resp" jNoSubtitles (by decide) rfl (fun _ => rfl) rfl⟩

/-- Claim C2 (code bug): at 0.9995 s the encoder emits `00:00:00,000` — the
fractional part rounds up to 1000 thousandths, `substring(2)` of `"1.000"`
yields `"000"`, and no carry reaches the seconds field — so the decoded value
0 misses the original by 999.5 ms, far beyond 1 ms; at 2.9995 s (exact
arithmetic) it emits `00:00:02,000`, the exact timestamp the claim forbids. -/
theorem formatSrtTime_carry_not_propagated :
    formatSrtTime (1999/2000 : ℚ) = "00:00:00,000" ∧
      decodeSrtTime (formatSrtTime (1999/2000 : ℚ)) = some 0 ∧
      (1/1000 : ℚ) < 1999/2000 - 0 ∧
      formatSrtTime (5999/2000 : ℚ) = "00:00:02,000" := by
  refine ⟨formatSrtTime_09995, ?_, by norm_num, formatSrtTime_29995⟩
  rw [formatSrtTime_09995]
  have h : decodeSrtTime "00:00:00,000" =
      some (((0:ℕ):ℚ) * 3600 + ((0:ℕ):ℚ) * 60 + ((0:ℕ):ℚ) + ((0:ℕ):ℚ)/1000) := rfl
  rw [h]
  norm_num

/-- Claim C3, counterexample: a two-entry batch whose second entry lacks a
`text` field is accepted wholesale — both entries are returned, no
InvalidSubtitleItem rejection occurs, and nothing is logged. -/
theorem missingText_batch_accepted :
    entryHasValidText subBadEntry = false ∧
      entryHasValidText subGoodEntry = true ∧
      (transcribeAndTranslateMedia parseBadEntry TargetLanguage.english (some sampleMedia)
          none svcBadEntry).result = Except.ok replyWithBadEntry ∧
      (transcribeAndTranslateMedia parseBadEntry TargetLanguage.english (some sampleMedia)
          none svcBadEntry).loggedError = none :=
  ⟨rfl, rfl, rfl, rfl⟩

/-- Claim C3 (amended): a parsed `subtitles` batch containing an entry with
no valid `text` field is not rejected: all `k` entries are returned exactly
as parsed (no InvalidSubtitleItem, nothing logged); no strict subset is ever
produced — acceptance is all-or-nothing only at the granularity of JSON
parsing itself. -/
theorem malformedBatch_returned_in_full (parse : String → Option Json)
    (targetLanguage : TargetLanguage) (md : MediaData)
    (service : GeminiRequest → ServiceBehavior) (s : String) (entries : List Json)
    (hs : s ≠ "")
    (hparse : parse s = some (Json.obj [("subtitles", Json.arr entries)]))
    (hsvc : ∀ req, service req = ServiceBehavior.returns (some s))
    (_hbad : ∃ e ∈ entries, entryHasValidText e = false) :
    (transcribeAndTranslateMedia parse targetLanguage (some md) none service).result =
        Except.ok (Json.obj [("subtitles", Json.arr entries)]) ∧
      (transcribeAndTranslateMedia parse targetLanguage (some md) none service).loggedError =
        none :=
  transcribe_inline_parsed parse targetLanguage md service s _ hs hparse hsvc

/-- Claim C3 witness: the amended claim at the concrete two-entry batch. -/
theorem malformedBatch_returned_in_full_witness :
    ("resp2" ≠ "" ∧
        parseBadEntry "resp2" =
          some (Json.obj [("subtitles", Json.arr [subGoodEntry, subBadEntry])]) ∧
        (∀ req, svcBadEntry req = ServiceBehavior.returns (some "resp2")) ∧
        (∃ e ∈ [subGoodEntry, subBadEntry], entryHasValidText e = false)) ∧
      (transcribeAndTranslateMedia parseBadEntry TargetLanguage.indonesian (some sampleMedia)
          none svcBadEntry).result =
        Except.ok (Json.obj [("subtitles", Json.arr [subGoodEntry, subBadEntry])]) ∧
      (transcribeAndTranslateMedia parseBadEntry TargetLanguage.indonesian (some sampleMedia)
          none svcBadEntry).loggedError = none :=
  ⟨⟨by decide, rfl, fun _ => rfl,
      ⟨subBadEntry, List.mem_cons_of_mem _ (List.mem_cons_self _ _), rfl⟩⟩,
    malformedBatch_returned_in_full parseBadEntry TargetLanguage.indonesian sampleMedia
      svcBadEntry "resp2" [subGoodEntry, subBadEntry] (by decide) rfl (fun _ => rfl)
      ⟨subBadEntry, List.mem_cons_of_mem _ (List.mem_cons_self _ _), rfl⟩⟩

/-- Claim C4: whenever the external service returns an empty or absent reply
text, the pipeline fails; internally the distinct `emptyResponse` kind is
raised and logged, distinguishable from the malformed-response,
external-failure and no-source kinds, while the caller receives the single
collapsed user-facing message. -/
theorem emptyReply_fails_with_emptyResponse (parse : String → Option Json)
    (targetLanguage : TargetLanguage) (mediaData : Option MediaData)
    (youtubeUrl : Option String) (service : GeminiRequest → ServiceBehavior)
    (hsrc : optionStrTruthy youtubeUrl = true ∨ mediaData.isSome = true)
    (hempty : ∀ req, service req = ServiceBehavior.returns none ∨
        service req = ServiceBehavior.returns (some "")) :
    (transcribeAndTranslateMedia parse targetLanguage mediaData youtubeUrl service).loggedError =
        some GeminiError.emptyResponse ∧
      (transcribeAndTranslateMedia parse targetLanguage mediaData youtubeUrl service).result =
        Except.error userFacingMessage ∧
      GeminiError.emptyResponse ≠ GeminiError.malformedResponse ∧
      GeminiError.emptyResponse ≠ GeminiError.externalServiceFailure ∧
      GeminiError.emptyResponse ≠ GeminiError.noSourceProvided := by
  obtain ⟨req, hb⟩ := buildRequest_ok_of_source targetLanguage mediaData youtubeUrl hsrc
  have hrun : transcribeRun parse targetLanguage mediaData youtubeUrl service =
      (Except.error GeminiError.emptyResponse, some req) := by
    unfold transcribeRun
    rw [hb]
    show (match service req with
      | ServiceBehavior.failure => (Except.error GeminiError.externalServiceFailure, some req)
      | ServiceBehavior.returns text => (responsePhase parse text, some req)) = _
    rcases hempty req with h | h <;> rw [h] <;> rfl
  unfold transcribeAndTranslateMedia
  rw [hrun]
  exact ⟨rfl, rfl, by decide, by decide, by decide⟩

/-- Claim C4 witness: an inline-payload call against a service whose reply
text is absent. -/
theorem emptyReply_fails_with_emptyResponse_witness :
    ((optionStrTruthy none = true ∨ (some sampleMedia).isSome = true) ∧
        (∀ req, emptyReplyService req = ServiceBehavior.returns none ∨
          emptyReplyService req = ServiceBehavior.returns (some ""))) ∧
      (transcribeAndTranslateMedia nullParse TargetLanguage.english (some sampleMedia) none
          emptyReplyService).loggedError = some GeminiError.emptyResponse ∧
      (transcribeAndTranslateMedia nullParse TargetLanguage.english (some sampleMedia) none
          emptyReplyService).result = Except.error userFacingMessage ∧
      GeminiError.emptyResponse ≠ GeminiError.malformedResponse ∧
      GeminiError.emptyResponse ≠ GeminiError.externalServiceFailure ∧
      GeminiError.emptyResponse ≠ GeminiError.noSourceProvided :=
  ⟨⟨Or.inr rfl, fun _ => Or.inl rfl⟩,
    emptyReply_fails_with_emptyResponse nullParse TargetLanguage.english (some sampleMedia) none
      emptyReplyService (Or.inr rfl) (fun _ => Or.inl rfl)⟩

/-- Claim C5: for every `seconds ≥ 0`, `formatSrtTime` renders the hour field
as `floor(seconds / 3600)` zero-padded to at least two digits — not capped at
24, witnessed by `formatSrtTime 90000 = "25:00:00,000"` — followed by the
minute field, the minutes component in `[0, 59]` derived from the remainder
after removing whole hours, zero-padded to two digits. -/
theorem formatSrtTime_hours_minutes (seconds : ℚ) (hs : 0 ≤ seconds) :
    (∃ rest : String,
        formatSrtTime seconds =
          padStart (toString ⌊seconds / 3600⌋) 2 '0' ++ ":" ++
            padStart (toString ⌊(seconds - 3600 * ⌊seconds / 3600⌋) / 60⌋) 2 '0' ++ ":" ++
              rest) ∧
      0 ≤ ⌊(seconds - 3600 * ⌊seconds / 3600⌋) / 60⌋ ∧
      ⌊(seconds - 3600 * ⌊seconds / 3600⌋) / 60⌋ ≤ 59 ∧
      formatSrtTime 90000 = "25:00:00,000" := by
  refine ⟨⟨padStart (toString (srtSecs seconds)) 2 '0' ++ "," ++ srtMs seconds, ?_⟩,
    remMinutes_nonneg seconds, by have := remMinutes_lt seconds; omega, formatSrtTime_90000⟩
  unfold formatSrtTime srtHours
  rw [srtMins_spec seconds hs]
  simp [String.append_assoc]

/-- Claim C5 witness: the claim instantiated at 90000 s (25 hours). -/
theorem formatSrtTime_hours_minutes_witness :
    (0:ℚ) ≤ 90000 ∧
      ((∃ rest : String,
          formatSrtTime 90000 =
            padStart (toString ⌊(90000:ℚ) / 3600⌋) 2 '0' ++ ":" ++
              padStart (toString ⌊((90000:ℚ) - 3600 * ⌊(90000:ℚ) / 3600⌋) / 60⌋) 2 '0' ++ ":" ++
                rest) ∧
        0 ≤ ⌊((90000:ℚ) - 3600 * ⌊(90000:ℚ) / 3600⌋) / 60⌋ ∧
        ⌊((90000:ℚ) - 3600 * ⌊(90000:ℚ) / 3600⌋) / 60⌋ ≤ 59 ∧
        formatSrtTime 90000 = "25:00:00,000") :=
  ⟨by decide, formatSrtTime_hours_minutes 90000 (by decide)⟩

/-- Claim C6: for every subtitle sequence, the wire-format output equals the
spec's construction — exactly one block per item, numbered `1..n` in sequence
order, each block the number line, the `start --> end` line and the text,
consecutive blocks separated by exactly one blank line, and no leading or
trailing extra blank beyond that. -/
theorem generateSrtString_wire_format (subtitles : List SubtitleItem) :
    generateSrtString subtitles = specSrtString subtitles ∧
      (specSrtBlocks 1 subtitles).length = subtitles.length := by
  refine ⟨?_, specSrtBlocks_length subtitles 1⟩
  cases subtitles with
  | nil => rfl
  | cons it rest =>
    show joinSep "\n" (srtBlocks 0 (it :: rest))
        = joinSep "\n\n" (specSrtBlocks 1 (it :: rest)) ++ "\n"
    rw [srtBlocks_eq_spec (it :: rest) 0]
    show joinSep "\n" ((specSrtBlockCore 1 it :: specSrtBlocks 2 rest).map fun b => b ++ "\n") = _
    rw [joinSep_terminated]
    rfl

/-- Claim C7: serialization is deterministic and does not mutate its input —
the array observable after the `map` traversal is the input itself, the
threaded run produces exactly `generateSrtString`, and serializing the
post-call array again yields byte-identical output. -/
theorem generateSrtString_deterministic_no_mutation (subtitles : List SubtitleItem) :
    (generateSrtStringRun subtitles).2 = subtitles ∧
      (generateSrtStringRun subtitles).1 = generateSrtString subtitles ∧
      (generateSrtStringRun ((generateSrtStringRun subtitles).2)).1 =
        (generateSrtStringRun subtitles).1 := by
  have h := srtBlocksRun_readonly subtitles 0
  simp [generateSrtStringRun, generateSrtString, h]

/-- Claim C8, counterexample: two oversized files with different observed
sizes produce the identical fixed error message, so the error does not carry
the observed size. -/
theorem oversize_error_lacks_size :
    oversizedFileA.size ≠ oversizedFileB.size ∧
      (validateAndSetFile initialAppState oversizedFileA).error =
        (validateAndSetFile initialAppState oversizedFileB).error ∧
      (validateAndSetFile initialAppState oversizedFileA).error =
        some "File size exceeds 100MB. Please upload a smaller file." :=
  ⟨by decide, rfl, rfl⟩

/-- Claim C8 (amended): a file larger than 100 MiB fails with the fixed
oversize message (which does not carry the observed size), the selection is
cleared, and a subsequent generate step can never encode that file or hand
any file to the request builder. -/
theorem oversizeFile_never_dispatched (st : AppState) (f : File)
    (hf : f.size > MAX_FILE_SIZE) :
    (validateAndSetFile st f).error =
        some "File size exceeds 100MB. Please upload a smaller file." ∧
      (validateAndSetFile st f).file = none ∧
      ∀ g : File, handleGenerate (validateAndSetFile st f) ≠ GenerateAction.dispatchFile g := by
  have herr : (validateAndSetFile st f).error =
      some "File size exceeds 100MB. Please upload a smaller file." := by
    unfold validateAndSetFile
    rw [if_pos hf]
  have hfile : (validateAndSetFile st f).file = none := by
    unfold validateAndSetFile
    rw [if_pos hf]
  exact ⟨herr, hfile, handleGenerate_no_file _ hfile⟩

/-- Claim C8 witness: the amended claim at a concrete 101 MiB file. -/
theorem oversizeFile_never_dispatched_witness :
    oversizedFileA.size > MAX_FILE_SIZE ∧
      ((validateAndSetFile initialAppState oversizedFileA).error =
          some "File size exceeds 100MB. Please upload a smaller file." ∧
        (validateAndSetFile initialAppState oversizedFileA).file = none ∧
        ∀ g : File, handleGenerate (validateAndSetFile initialAppState oversizedFileA) ≠
          GenerateAction.dispatchFile g) :=
  ⟨by decide, oversizeFile_never_dispatched initialAppState oversizedFileA (by decide)⟩

/-- Claim C9: mode dispatch of the request builder — a truthy reference URL
yields a request carrying the googleSearch tool with the URL embedded in the
instruction text; an inline payload with no reference yields an inlineData
part and no tools; with neither source, the builder fails with the
no-source-provided kind and nothing is ever dispatched to the service. -/
theorem buildRequest_mode_dispatch (parse : String → Option Json)
    (targetLanguage : TargetLanguage) (mediaDataOpt : Option MediaData) (md : MediaData)
    (url : String) (service : GeminiRequest → ServiceBehavior) (hurl : url ≠ "") :
    (∃ req, buildRequest targetLanguage mediaDataOpt (some url) = Except.ok req ∧
        req.tools = [RequestTool.googleSearch] ∧
        ∃ pre post, req.contents = [⟨[RequestPart.text (pre ++ url ++ post)]⟩]) ∧
      (∃ req, buildRequest targetLanguage (some md) none = Except.ok req ∧
          req.tools = [] ∧
          req.contents = [⟨[RequestPart.text (promptBase (targetLanguageName targetLanguage)),
            RequestPart.inlineData md.base64 md.mimeType]⟩]) ∧
      (buildRequest targetLanguage none none = Except.error GeminiError.noSourceProvided ∧
        (transcribeAndTranslateMedia parse targetLanguage none none service).dispatched = none ∧
        (transcribeAndTranslateMedia parse targetLanguage none none service).loggedError =
          some GeminiError.noSourceProvided ∧
        (transcribeAndTranslateMedia parse targetLanguage none none service).result =
          Except.error userFacingMessage) := by
  refine ⟨⟨_, buildRequest_url targetLanguage mediaDataOpt url hurl, rfl, ?_⟩,
    ⟨_, rfl, rfl, rfl⟩, rfl, rfl, rfl, rfl⟩
  exact ⟨promptBase (targetLanguageName targetLanguage) ++
      "\n\nTask: Generate subtitles for this YouTube video: ",
    ". Use your tools to find the transcript or dialogue.", rfl⟩

/-- Claim C9 witness: the three modes at concrete arguments. -/
theorem buildRequest_mode_dispatch_witness :
    ("https://youtu.be/demo" ≠ "") ∧
      ((∃ req, buildRequest TargetLanguage.english none (some "https://youtu.be/demo") =
            Except.ok req ∧
          req.tools = [RequestTool.googleSearch] ∧
          ∃ pre post, req.contents =
            [⟨[RequestPart.text (pre ++ "https://youtu.be/demo" ++ post)]⟩]) ∧
        (∃ req, buildRequest TargetLanguage.english (some sampleMedia) none = Except.ok req ∧
            req.tools = [] ∧
            req.contents =
              [⟨[RequestPart.text (promptBase (targetLanguageName TargetLanguage.english)),
                RequestPart.inlineData sampleMedia.base64 sampleMedia.mimeType]⟩]) ∧
        (buildRequest TargetLanguage.english none none =
            Except.error GeminiError.noSourceProvided ∧
          (transcribeAndTranslateMedia nullParse TargetLanguage.english none none
              emptyReplyService).dispatched = none ∧
          (transcribeAndTranslateMedia nullParse TargetLanguage.english none none
              emptyReplyService).loggedError = some GeminiError.noSourceProvided ∧
          (transcribeAndTranslateMedia nullParse TargetLanguage.english none none
              emptyReplyService).result = Except.error userFacingMessage)) :=
  ⟨by decide,
    buildRequest_mode_dispatch nullParse TargetLanguage.english none sampleMedia
      "https://youtu.be/demo" emptyReplyService (by decide)⟩

/-- Claim C10: when both an inline payload and a truthy reference URL are
supplied, the URL branch takes precedence — the built request (and hence the
whole call) is identical to the one with no payload, it carries the search
tool, and no content part is inline data: the payload is silently ignored
rather than causing an error or a combined request. -/
theorem buildRequest_url_precedence (parse : String → Option Json)
    (targetLanguage : TargetLanguage) (md : MediaData) (url : String)
    (service : GeminiRequest → ServiceBehavior) (hurl : url ≠ "") :
    buildRequest targetLanguage (some md) (some url) =
        buildRequest targetLanguage none (some url) ∧
      transcribeAndTranslateMedia parse targetLanguage (some md) (some url) service =
        transcribeAndTranslateMedia parse targetLanguage none (some url) service ∧
      ∀ req, buildRequest targetLanguage (some md) (some url) = Except.ok req →
        req.tools = [RequestTool.googleSearch] ∧
        ∀ c ∈ req.contents, ∀ p ∈ c.parts, ∀ d mt, p ≠ RequestPart.inlineData d mt := by
  have hb1 := buildRequest_url targetLanguage (some md) url hurl
  have hb2 := buildRequest_url targetLanguage none url hurl
  refine ⟨hb1.trans hb2.symm, ?_, ?_⟩
  · unfold transcribeAndTranslateMedia transcribeRun
    rw [hb1, hb2]
  · intro req hreq
    rw [hb1] at hreq
    injection hreq with hreq
    subst hreq
    refine ⟨rfl, ?_⟩
    intro c hc p hp d mt
    simp only [List.mem_singleton] at hc
    subst hc
    simp only [List.mem_singleton] at hp
    subst hp
    simp

/-- Claim C10 witness: payload and URL both supplied at concrete arguments. -/
theorem buildRequest_url_precedence_witness :
    ("https://youtu.be/demo" ≠ "") ∧
      (buildRequest TargetLanguage.english (some sampleMedia) (some "https://youtu.be/demo") =
          buildRequest TargetLanguage.english none (some "https://youtu.be/demo") ∧
        transcribeAndTranslateMedia nullParse TargetLanguage.english (some sampleMedia)
            (some "https://youtu.be/demo") emptyReplyService =
          transcribeAndTranslateMedia nullParse TargetLanguage.english none
            (some "https://youtu.be/demo") emptyReplyService ∧
        ∀ req, buildRequest TargetLanguage.english (some sampleMedia)
            (some "https://youtu.be/demo") = Except.ok req →
          req.tools = [RequestTool.googleSearch] ∧
          ∀ c ∈ req.contents, ∀ p ∈ c.parts, ∀ d mt, p ≠ RequestPart.inlineData d mt) :=
  ⟨by decide,
    buildRequest_url_precedence nullParse TargetLanguage.english sampleMedia
      "https://youtu.be/demo" emptyReplyService (by decide)⟩
